import Mathlib

/-!
Verification development for the tiered configuration cache and the
conversation persistence manager of the advertising-agents service.

The definitions below are shallow embeddings of the Python source:
  * `dynamodb_config_loader.py` — the DynamoDB-backed config loader with its
    module-level in-process cache (`_config_cache`),
  * `agentcore_memory_conversation_manager.py` — the conversation manager that
    syncs turns to AgentCore Memory,
  * `handler.py` — `trim_context_messages`, the agent-switch context save, and
    `refresh_all_caches`.
-/

namespace AdAgents

/-! ## Backing store model (DynamoDB table)

A read against the key/value store is addressed by (partition key, sort key)
and a `ConsistentRead` flag.  The outcome is either a found item, a genuine
not-found, or a `ClientError` raised by the SDK.  The store is modelled as an
arbitrary function of the three read parameters; in particular a
strongly-consistent read (`consistentRead = true`) is, by DynamoDB's contract,
the read that reflects the most recent successful write, while an
eventually-consistent read (`consistentRead = false`) may return stale data. -/

structure Item where
  content : String
  deriving DecidableEq, Repr

inductive FetchOutcome where
  | found (it : Item)
  | notFound
  | clientError
  deriving DecidableEq, Repr

/-- The key/value backing store: `pk`, `sk`, `consistentRead` ↦ outcome. -/
def Store : Type := String → String → Bool → FetchOutcome

/-- Embedding of `_get_item` (dynamodb_config_loader.py lines 102–117):
a single `get_item` with the given `ConsistentRead` flag; a `ClientError` is
caught, logged, and collapsed to `None` — indistinguishable from not-found. -/
def get_item (st : Store) (pk sk : String) (consistent_read : Bool) : Option Item :=
  match st pk sk consistent_read with
  | .found it => some it
  | .notFound => none
  | .clientError => none

/-! ## In-process config cache

`_config_cache` is a Python dict from string keys to values, where a stored
`None` is a valid negative entry (distinct from the key being absent from the
dict).  Modelled as an association list whose first binding for a key wins,
so consing a binding is exactly a dict overwrite. -/

def Cache : Type := List (String × Option String)

def cacheLookup (c : Cache) (k : String) : Option (Option String) :=
  List.lookup k c

def cacheInsert (c : Cache) (k : String) (v : Option String) : Cache :=
  (k, v) :: c

/-! ## Typed accessors of the loader

Each accessor returns (result, updated cache, number of backing-store reads
performed).  The call counter is ghost instrumentation; the result and cache
components mirror the Python exactly.  JSON parsing (`json.loads`) of
card/viz/global content is abstracted as a `parse` parameter returning
`none` on `JSONDecodeError`. -/

/-- Embedding of `load_agent_instructions` (lines 168–198).  Cache hit is
taken only when `use_cache`; otherwise a single `_get_item` with
`consistent_read = not use_cache`, caching the content or a negative entry. -/
def load_agent_instructions (st : Store) (cache : Cache) (agent_name : String)
    (use_cache : Bool) : Option String × Cache × Nat :=
  let cache_key := "instruction:" ++ agent_name
  match use_cache, cacheLookup cache cache_key with
  | true, some v => (v, cache, 0)
  | _, _ =>
    let pk := "INSTRUCTION#" ++ agent_name
    match get_item st pk "v1" (!use_cache) with
    | some item => (some item.content, cacheInsert cache cache_key (some item.content), 1)
    | none => (none, cacheInsert cache cache_key none, 1)

/-- Embedding of `load_agent_card` (lines 205–238).  Note the source calls
`_get_item(pk, sk)` with no `consistent_read` argument, so the read is
eventually consistent even when `use_cache = False`.  A parse failure falls
through to the negative-cache line, like not-found. -/
def load_agent_card (st : Store) (parse : String → Option String) (cache : Cache)
    (agent_name : String) (use_cache : Bool) : Option String × Cache × Nat :=
  let cache_key := "card:" ++ agent_name
  match use_cache, cacheLookup cache cache_key with
  | true, some v => (v, cache, 0)
  | _, _ =>
    let pk := "CARD#" ++ agent_name
    match get_item st pk "v1" false with
    | some item =>
      match parse item.content with
      | some card_data => (some card_data, cacheInsert cache cache_key (some card_data), 1)
      | none => (none, cacheInsert cache cache_key none, 1)
    | none => (none, cacheInsert cache cache_key none, 1)

/-- Embedding of `load_visualization_map` (lines 274–306); same shape as
`load_agent_card`, eventually-consistent read. -/
def load_visualization_map (st : Store) (parse : String → Option String) (cache : Cache)
    (agent_name : String) (use_cache : Bool) : Option String × Cache × Nat :=
  let cache_key := "viz_map:" ++ agent_name
  match use_cache, cacheLookup cache cache_key with
  | true, some v => (v, cache, 0)
  | _, _ =>
    let pk := "VIZ_MAP#" ++ agent_name
    match get_item st pk "v1" false with
    | some item =>
      match parse item.content with
      | some viz_map => (some viz_map, cacheInsert cache cache_key (some viz_map), 1)
      | none => (none, cacheInsert cache cache_key none, 1)
    | none => (none, cacheInsert cache cache_key none, 1)

/-- Embedding of `load_visualization_template` (lines 309–346); sort key is
the template id, read is eventually consistent. -/
def load_visualization_template (st : Store) (parse : String → Option String)
    (cache : Cache) (agent_name template_id : String) (use_cache : Bool) :
    Option String × Cache × Nat :=
  let cache_key := "viz_template:" ++ agent_name ++ ":" ++ template_id
  match use_cache, cacheLookup cache cache_key with
  | true, some v => (v, cache, 0)
  | _, _ =>
    let pk := "VIZ_TEMPLATE#" ++ agent_name
    match get_item st pk template_id false with
    | some item =>
      match parse item.content with
      | some template_data =>
        (some template_data, cacheInsert cache cache_key (some template_data), 1)
      | none => (none, cacheInsert cache cache_key none, 1)
    | none => (none, cacheInsert cache cache_key none, 1)

/-- Embedding of `load_global_config` (lines 397–429); like instructions it
passes `consistent_read = not use_cache`, with JSON parsing on top. -/
def load_global_config (st : Store) (parse : String → Option String) (cache : Cache)
    (use_cache : Bool) : Option String × Cache × Nat :=
  let cache_key := "global_config"
  match use_cache, cacheLookup cache cache_key with
  | true, some v => (v, cache, 0)
  | _, _ =>
    match get_item st "GLOBAL_CONFIG" "v1" (!use_cache) with
    | some item =>
      match parse item.content with
      | some config => (some config, cacheInsert cache cache_key (some config), 1)
      | none => (none, cacheInsert cache cache_key none, 1)
    | none => (none, cacheInsert cache cache_key none, 1)

/-! ## Conversation messages -/

/-- An internal (strands-format) message: role plus the text of its first
content block.  The Python `content` is a list of blocks; the loaders and the
persistence manager only ever read `content[0]["text"]`, which is what
`content` models here. -/
structure Msg where
  role : String
  content : String
  deriving DecidableEq, Repr

def lowerString (s : String) : String := String.mk (s.data.map Char.toLower)

/-- A message in the durable AgentCore Memory format (`ConversationalMessage`):
role resolved to user/assistant, text truncated to the 9000-character cap. -/
structure DurableMsg where
  role : String
  text : String
  deriving DecidableEq, Repr

/-- Embedding of the per-message translation inside `apply_management`
(lines 266–287): lowercase role, `USER` iff the role string is "user",
truncate text over 9000 characters. -/
def toDurable (m : Msg) : DurableMsg :=
  { role := if lowerString m.role = "user" then "user" else "assistant"
    text := if m.content.length > 9000 then m.content.take 9000 else m.content }

/-! ## Python list slicing

`messages[start:]` for an arbitrary integer `start` (negative indices count
from the end, clamped at the list's bounds). -/

def pySliceFrom (ms : List Msg) (i : Int) : List Msg :=
  if 0 ≤ i then ms.drop i.toNat else ms.drop ((ms.length : Int) + i).toNat

/-! ## AgentCoreMemoryConversationManager

State of one manager instance.  The remote collaborators (the memory session,
the fallback summarizer) are out of scope per the spec; their presence is a
flag and their responses are parameters of the operations. -/

structure ConvMgr where
  auto_persist : Bool
  memory_available : Bool
  has_fallback : Bool
  last_persisted_index : Int
  persisted_message_count : Nat
  removed_message_count : Nat
  deriving DecidableEq, Repr

/-- Embedding of `apply_management` (lines 234–302).  Returns the new manager
state together with the payload of the `add_turns` call, or `none` when
`add_turns` is not called at all.  `writeOk = false` models `add_turns`
raising: the exception is caught and the cursor is left unadvanced (the
assignments at lines 291–292 follow the `add_turns` call).  The fallback
manager's own `apply_management` performs no durable write and does not touch
this manager's fields, so it does not appear in the state. -/
def apply_management (m : ConvMgr) (messages : List Msg) (writeOk : Bool) :
    ConvMgr × Option (List DurableMsg) :=
  if !m.auto_persist then (m, none)
  else if !m.memory_available then (m, none)
  else
    let new_messages_start : Int := m.last_persisted_index + 1
    let new_messages :=
      if new_messages_start < (messages.length : Int) then pySliceFrom messages new_messages_start
      else []
    if new_messages.isEmpty then (m, none)
    else
      let conversational_messages := new_messages.map toDurable
      if writeOk then
        ({ m with last_persisted_index := (messages.length : Int) - 1
                  persisted_message_count := messages.length }, some conversational_messages)
      else (m, some conversational_messages)

/-- Embedding of `reduce_context` (lines 304–335).  With a fallback manager
the actual reduction is delegated (its result is the parameter
`reducedByFallback`, the value of `agent.messages` afterwards) and the cursor
is resynchronized to the new length.  Without one, lists longer than 10 are
cut to their last 10 messages. -/
def reduce_context (m : ConvMgr) (messages reducedByFallback : List Msg) :
    ConvMgr × List Msg :=
  if m.has_fallback then
    ({ m with last_persisted_index := (reducedByFallback.length : Int) - 1
              persisted_message_count := reducedByFallback.length }, reducedByFallback)
  else if messages.length > 10 then
    let kept := messages.drop (messages.length - 10)
    ({ m with removed_message_count := m.removed_message_count + (messages.length - 10)
              last_persisted_index := (kept.length : Int) - 1
              persisted_message_count := kept.length }, kept)
  else (m, messages)

/-! ## restore_from_session -/

/-- The `content` field of a message fetched from AgentCore Memory (lines
186–195): a dict with a "text" key, a plain string, or anything else (whose
`str()` rendering is carried). -/
inductive RawContent where
  | textField (t : String)
  | plainText (s : String)
  | other (s : String)
  deriving DecidableEq, Repr

structure RawMsg where
  role : String
  content : RawContent
  deriving DecidableEq, Repr

def extractText : RawContent → String
  | .textField t => t
  | .plainText s => s
  | .other s => s

/-- Lines 186–202: every fetched message is translated — lowercase the role,
extract the text — and appended; there is no filtering condition. -/
def rawToMsg (r : RawMsg) : Msg :=
  { role := lowerString r.role, content := extractText r.content }

/-- Embedding of `restore_from_session` (lines 140–219).
`stateCursor` is the optional `(persisted_message_count, last_persisted_index)`
pair recovered from the serialized `state` dict; `fetch` is the outcome of
`get_last_k_turns` (`.error` = the call raised); `fb` is what the fallback
manager's `restore_from_session` would return, used on the unavailable and
failure paths when a fallback exists. -/
def restore_from_session (m : ConvMgr) (stateCursor : Option (Nat × Int))
    (fetch : Except String (List (List RawMsg))) (fb : Option (List Msg)) :
    ConvMgr × Option (List Msg) :=
  let m1 : ConvMgr :=
    match stateCursor with
    | some pc => { m with persisted_message_count := pc.1, last_persisted_index := pc.2 }
    | none => m
  if !m1.memory_available then
    (m1, if m1.has_fallback then fb else none)
  else
    match fetch with
    | .error _ => (m1, if m1.has_fallback then fb else none)
    | .ok recent_turns =>
      if recent_turns.isEmpty then (m1, none)
      else
        let messages := recent_turns.flatten.map rawToMsg
        ({ m1 with persisted_message_count := messages.length
                   last_persisted_index := (messages.length : Int) - 1 }, some messages)

/-! ## handler.py: session context store -/

/-- Embedding of `trim_context_messages` (handler.py lines 2033–2044).
The slice `messages[-max_messages:]` is the whole list when
`max_messages = 0` (Python `-0 == 0`), otherwise the last `max_messages`
elements. -/
def trim_context_messages (messages : List Msg) (max_messages : Nat) : List Msg :=
  if messages.length ≤ max_messages then messages
  else if max_messages = 0 then messages
  else messages.drop (messages.length - max_messages)

/-- `agent_context_store`: session id → agent name → saved message list. -/
def CtxStore : Type := String → String → Option (List Msg)

def ctxEmpty : CtxStore := fun _ _ => none

/-- Embedding of the context save on agent switch (handler.py lines
2469–2482): the live messages are deep-copied and trimmed to 8 before being
stored under (session, outgoing agent). -/
def ctxSave (st : CtxStore) (session agent : String) (live : List Msg) : CtxStore :=
  fun s a => if s = session ∧ a = agent then some (trim_context_messages live 8) else st s a

/-- Embedding of `clear_session_context` (handler.py lines 2023–2030). -/
def ctxClear (st : CtxStore) (session : String) : CtxStore :=
  fun s a => if s = session then none else st s a

/-- The states `agent_context_store` can reach: empty at process start, then
any interleaving of switch-saves and session clears. -/
inductive ctxReachable : CtxStore → Prop where
  | empty : ctxReachable ctxEmpty
  | save (st : CtxStore) (session agent : String) (live : List Msg) :
      ctxReachable st → ctxReachable (ctxSave st session agent live)
  | clear (st : CtxStore) (session : String) :
      ctxReachable st → ctxReachable (ctxClear st session)

/-! ## handler.py: refresh_all_caches

The statistics record carries the fields of the `stats` dict that the claims
mention; `cards` is `none` when the cards reload raised (the source then
never sets `stats["items_reloaded"]["cards"]`). -/

structure RefreshStats where
  success : Bool
  errors : List String
  instructions_from_ddb : Nat
  cards : Option Nat
  global_config_count : Nat
  agent_configs_found : Nat
  deriving DecidableEq, Repr

/-- Outcome of one `ddb_load_instructions(agent, use_cache=False)` call inside
the refresh loop: content found, not found, or an exception raised. -/
inductive InstrOutcome where
  | ok (content : String)
  | notFound
  | raised (msg : String)
  deriving DecidableEq, Repr

/-- One iteration of the per-agent reload loop (handler.py lines 709–722):
a found instruction bumps the counter, a raise appends to the error list,
and the loop always continues. -/
def refreshStep (instrLoad : String → InstrOutcome) (acc : Nat × List String)
    (a : String) : Nat × List String :=
  match instrLoad a with
  | .ok _ => (acc.1 + 1, acc.2)
  | .notFound => acc
  | .raised m => (acc.1, acc.2 ++ ["Instructions " ++ a ++ ": " ++ m])

/-- Embedding of `refresh_all_caches` (handler.py lines 635–771).
`globalLoad` is the step-3 global reload: `.ok names` gives the agent id
list, `.error e` models the load raising — the only channel that escapes to
the outer `except`, which stamps `success = False` and a fatal error entry.
`instrLoad` and `cardsLoad` are the per-item reloads, each wrapped in its own
`try` so a raise is collected, never fatal. -/
def refresh_all_caches (globalLoad : Except String (List String))
    (instrLoad : String → InstrOutcome) (cardsLoad : Except String (List String)) :
    RefreshStats :=
  match globalLoad with
  | .error e =>
    { success := false, errors := ["Fatal error: " ++ e], instructions_from_ddb := 0
      cards := none, global_config_count := 0, agent_configs_found := 0 }
  | .ok agent_names =>
    let loaded := agent_names.foldl (refreshStep instrLoad) (0, [])
    let afterCards : Option Nat × List String :=
      match cardsLoad with
      | .ok cards => (some cards.length, loaded.2)
      | .error m => (none, loaded.2 ++ ["Agent cards: " ++ m])
    { success := true, errors := afterCards.2, instructions_from_ddb := loaded.1
      cards := afterCards.1, global_config_count := 1
      agent_configs_found := agent_names.length }

/-! ## Theorems -/

/-- A store in which the most recent write to `CARD#AgentX` is `"new"` — that
is what its strongly-consistent read returns — while the eventually-consistent
read still serves the stale `"old"`. -/
def staleCardStore : Store := fun pk sk cr =>
  if pk = "CARD#AgentX" ∧ sk = "v1" then
    (if cr then .found ⟨"new"⟩ else .found ⟨"old"⟩)
  else .notFound

/-- Claim C1, counterexample: even against a store whose strongest read
returns the most recently written card `"new"`, `load_agent_card` with
`use_cache = False` returns the stale `"old"` — because the source calls
`_get_item(pk, sk)` without `consistent_read=True` for cards (and likewise
for visualization maps/templates).  So a Strict read does not use the store's
strongest read consistency for every typed accessor. -/
theorem strict_card_read_misses_latest_write :
    staleCardStore "CARD#AgentX" "v1" true = .found ⟨"new"⟩
  ∧ (load_agent_card staleCardStore some [] "AgentX" false).1 = some "old"
  ∧ (some "old" : Option String) ≠ some "new" := by
  refine ⟨rfl, rfl, by decide⟩

/-- Claim C1 (amended): every typed accessor called with `use_cache = False`
bypasses the in-process cache — its result does not depend on the cache and
it always performs exactly one backing-store read.  Instructions and global
configuration additionally pass `consistent_read = True` and return exactly
what the store's strongest read yields; agent cards, visualization maps and
visualization templates instead issue the default eventually-consistent read,
so they may return a value older than the most recent write. -/
theorem strict_read_semantics :
    (∀ (st : Store) (c₁ c₂ : Cache) (a : String),
        (load_agent_instructions st c₁ a false).1 = (load_agent_instructions st c₂ a false).1
      ∧ (load_agent_instructions st c₁ a false).2.2 = 1)
  ∧ (∀ (st : Store) (p : String → Option String) (c₁ c₂ : Cache) (a : String),
        (load_agent_card st p c₁ a false).1 = (load_agent_card st p c₂ a false).1
      ∧ (load_agent_card st p c₁ a false).2.2 = 1)
  ∧ (∀ (st : Store) (p : String → Option String) (c₁ c₂ : Cache) (a : String),
        (load_visualization_map st p c₁ a false).1 = (load_visualization_map st p c₂ a false).1
      ∧ (load_visualization_map st p c₁ a false).2.2 = 1)
  ∧ (∀ (st : Store) (p : String → Option String) (c₁ c₂ : Cache) (a t : String),
        (load_visualization_template st p c₁ a t false).1
          = (load_visualization_template st p c₂ a t false).1
      ∧ (load_visualization_template st p c₁ a t false).2.2 = 1)
  ∧ (∀ (st : Store) (p : String → Option String) (c₁ c₂ : Cache),
        (load_global_config st p c₁ false).1 = (load_global_config st p c₂ false).1
      ∧ (load_global_config st p c₁ false).2.2 = 1)
  ∧ (∀ (st : Store) (c : Cache) (a : String),
        (load_agent_instructions st c a false).1
          = (get_item st ("INSTRUCTION#" ++ a) "v1" true).map Item.content)
  ∧ (∀ (st : Store) (p : String → Option String) (c : Cache),
        (load_global_config st p c false).1
          = (get_item st "GLOBAL_CONFIG" "v1" true).bind (fun it => p it.content))
  ∧ (∀ (st : Store) (p : String → Option String) (c : Cache) (a : String),
        (load_agent_card st p c a false).1
          = (get_item st ("CARD#" ++ a) "v1" false).bind (fun it => p it.content)) := by
  refine ⟨?_, ?_, ?_, ?_, ?_, ?_, ?_, ?_⟩
  · intro st c₁ c₂ a
    constructor
    · cases h : get_item st ("INSTRUCTION#" ++ a) "v1" true <;>
        simp [load_agent_instructions, h]
    · cases h : get_item st ("INSTRUCTION#" ++ a) "v1" true <;>
        simp [load_agent_instructions, h]
  · intro st p c₁ c₂ a
    constructor
    · cases h : get_item st ("CARD#" ++ a) "v1" false <;>
        simp [load_agent_card, h] <;> cases p ‹Item›.content <;> simp
    · cases h : get_item st ("CARD#" ++ a) "v1" false <;>
        simp [load_agent_card, h] <;> cases p ‹Item›.content <;> simp
  · intro st p c₁ c₂ a
    constructor
    · cases h : get_item st ("VIZ_MAP#" ++ a) "v1" false <;>
        simp [load_visualization_map, h] <;> cases p ‹Item›.content <;> simp
    · cases h : get_item st ("VIZ_MAP#" ++ a) "v1" false <;>
        simp [load_visualization_map, h] <;> cases p ‹Item›.content <;> simp
  · intro st p c₁ c₂ a t
    constructor
    · cases h : get_item st ("VIZ_TEMPLATE#" ++ a) t false <;>
        simp [load_visualization_template, h] <;> cases p ‹Item›.content <;> simp
    · cases h : get_item st ("VIZ_TEMPLATE#" ++ a) t false <;>
        simp [load_visualization_template, h] <;> cases p ‹Item›.content <;> simp
  · intro st p c₁ c₂
    constructor
    · cases h : get_item st "GLOBAL_CONFIG" "v1" true <;>
        simp [load_global_config, h] <;> cases p ‹Item›.content <;> simp
    · cases h : get_item st "GLOBAL_CONFIG" "v1" true <;>
        simp [load_global_config, h] <;> cases p ‹Item›.content <;> simp
  · intro st c a
    cases h : get_item st ("INSTRUCTION#" ++ a) "v1" true <;>
      simp [load_agent_instructions, h]
  · intro st p c
    cases h : get_item st "GLOBAL_CONFIG" "v1" true <;>
      simp [load_global_config, h] <;> cases p ‹Item›.content <;> simp
  · intro st p c a
    cases h : get_item st ("CARD#" ++ a) "v1" false <;>
      simp [load_agent_card, h] <;> cases p ‹Item›.content <;> simp

/-- Claim C2: for a key absent from the backing store, the first Relaxed
(`use_cache = True`) instruction load on an un-cached agent queries the store
exactly once, writes a negative cache entry, and returns not-found; and any
Relaxed load against a cache holding a negative entry for the key returns
not-found with zero backing-store calls, leaving the cache unchanged. -/
theorem negative_caching_of_absent_keys (st : Store) (cache : Cache) (a : String)
    (habsent : ∀ b : Bool, st ("INSTRUCTION#" ++ a) "v1" b = .notFound)
    (hmiss : cacheLookup cache ("instruction:" ++ a) = none) :
    ((load_agent_instructions st cache a true).1 = none
      ∧ (load_agent_instructions st cache a true).2.2 = 1
      ∧ cacheLookup (load_agent_instructions st cache a true).2.1 ("instruction:" ++ a)
          = some none)
  ∧ (∀ c : Cache, cacheLookup c ("instruction:" ++ a) = some none →
      load_agent_instructions st c a true = (none, c, 0)) := by
  constructor
  · have hget : get_item st ("INSTRUCTION#" ++ a) "v1" false = none := by
      simp [get_item, habsent false]
    have hm : List.lookup ("instruction:" ++ a) cache = none := hmiss
    refine ⟨?_, ?_, ?_⟩ <;>
      simp [load_agent_instructions, hm, hget, cacheLookup, cacheInsert, List.lookup]
  · intro c hc
    unfold load_agent_instructions
    simp only []
    rw [hc]

/-- Witness for `negative_caching_of_absent_keys`: the empty store and empty
cache, agent `"A"`. -/
theorem negative_caching_of_absent_keys_witness :
    (((load_agent_instructions (fun _ _ _ => .notFound) [] "A" true).1 = none
      ∧ (load_agent_instructions (fun _ _ _ => .notFound) [] "A" true).2.2 = 1
      ∧ cacheLookup (load_agent_instructions (fun _ _ _ => .notFound) [] "A" true).2.1
          ("instruction:" ++ "A") = some none)
  ∧ (∀ c : Cache, cacheLookup c ("instruction:" ++ "A") = some none →
      load_agent_instructions (fun _ _ _ => .notFound) c "A" true = (none, c, 0))) :=
  negative_caching_of_absent_keys (fun _ _ _ => .notFound) [] "A"
    (fun _ => rfl) rfl

/-- Claim C3: when the persistence cursor already sits at the end of the
message list (`_last_persisted_index = len(messages) - 1`), `apply_management`
calls `add_turns` on nothing (second component `none`) and returns the manager
unchanged — so a second `apply_management` on an unchanged list writes
nothing. -/
theorem apply_management_noop_at_end (m : ConvMgr) (ms : List Msg) (writeOk : Bool)
    (h : m.last_persisted_index = (ms.length : Int) - 1) :
    apply_management m ms writeOk = (m, none) := by
  unfold apply_management
  cases hap : m.auto_persist with
  | false => simp
  | true =>
    cases hma : m.memory_available with
    | false => simp
    | true =>
      have hlt : ¬ (m.last_persisted_index + 1 < (ms.length : Int)) := by omega
      simp [hlt]

/-- Witness for `apply_management_noop_at_end`: a manager whose cursor is 1
against a two-message list. -/
theorem apply_management_noop_at_end_witness :
    apply_management ⟨true, true, false, 1, 2, 0⟩
      [⟨"user", "hi"⟩, ⟨"assistant", "hello"⟩] true
      = (⟨true, true, false, 1, 2, 0⟩, none) :=
  apply_management_noop_at_end ⟨true, true, false, 1, 2, 0⟩
    [⟨"user", "hi"⟩, ⟨"assistant", "hello"⟩] true (by decide)

/-- Claim C6, counterexample: the persistence cursor is not monotonic across
every operation.  Starting from a fresh manager, one `apply_management` over a
20-message conversation moves the cursor to 19; a subsequent `reduce_context`
(no fallback manager: the messages are cut to the last 10) resynchronizes the
cursor to 9, strictly below 19. -/
theorem reduce_context_decreases_cursor :
    (apply_management ⟨true, true, false, -1, 0, 0⟩
        (List.replicate 20 ⟨"user", "x"⟩) true).1.last_persisted_index = 19
  ∧ (reduce_context
        (apply_management ⟨true, true, false, -1, 0, 0⟩
          (List.replicate 20 ⟨"user", "x"⟩) true).1
        (List.replicate 20 ⟨"user", "x"⟩) []).1.last_persisted_index = 9
  ∧ (9 : Int) < 19 := by decide

/-- Claim C6 (amended): the persistence cursor is monotonic non-decreasing
across `apply_management` (including failed writes, which leave it in place);
`reduce_context` and `restore_from_session` instead resynchronize it to the
current (possibly shorter) message list, so it can decrease there. -/
theorem apply_management_cursor_monotone (m : ConvMgr) (ms : List Msg) (writeOk : Bool) :
    m.last_persisted_index ≤ (apply_management m ms writeOk).1.last_persisted_index := by
  unfold apply_management
  cases hap : m.auto_persist with
  | false => simp
  | true =>
    cases hma : m.memory_available with
    | false => simp
    | true =>
      by_cases hlt : m.last_persisted_index + 1 < (ms.length : Int)
      · simp only [hlt, if_true, Bool.not_true, Bool.false_eq_true, if_false]
        by_cases hemp : (pySliceFrom ms (m.last_persisted_index + 1)).isEmpty
        · simp [hemp]
        · cases writeOk <;> simp [hemp] <;> omega
      · simp [hlt]

lemma trim_context_messages_length_le (ms : List Msg) (n : Nat) (hn : 1 ≤ n) :
    (trim_context_messages ms n).length ≤ n := by
  unfold trim_context_messages
  by_cases h : ms.length ≤ n
  · simp [h]
  · have hn0 : n ≠ 0 := by omega
    simp only [h, if_false, hn0]
    simp [List.length_drop]
    omega

lemma ctxReachable_bound (st : CtxStore) (hst : ctxReachable st) :
    ∀ (s a : String) (ms : List Msg), st s a = some ms → ms.length ≤ 8 := by
  induction hst with
  | empty => intro s a ms h; simp [ctxEmpty] at h
  | save st0 session agent live _ ih =>
    intro s a ms h
    unfold ctxSave at h
    by_cases hc : s = session ∧ a = agent
    · simp only [hc, if_true] at h
      cases h
      exact trim_context_messages_length_le live 8 (by omega)
    · simp only [hc, if_false] at h
      exact ih s a ms h
  | clear st0 session _ ih =>
    intro s a ms h
    unfold ctxClear at h
    by_cases hc : s = session
    · simp [hc] at h
    · simp only [hc, if_false] at h
      exact ih s a ms h

/-- Claim C4, counterexample: the claim's trimming equation fails at the
degenerate bound `n = 0`.  Python's `messages[-0:]` is the whole list, so
`trim_context_messages([m], 0)` returns `[m]`, while "the last 0 elements of
ms" is `[]`. -/
theorem trim_at_zero_keeps_everything :
    trim_context_messages [⟨"user", "hello"⟩] 0 = [⟨"user", "hello"⟩]
  ∧ ([⟨"user", "hello"⟩] : List Msg).drop (1 - 0) = []
  ∧ ([⟨"user", "hello"⟩] : List Msg) ≠ [] := by decide

/-- Claim C4 (amended): every stored context list in a reachable
`agent_context_store` has at most 8 messages (the switch-save bound), hence
also at most the steady-state bound 30; and for every positive bound `n`,
`trim_context_messages ms n` is `ms` when `ms` fits and otherwise exactly the
last `n` elements of `ms` in their original order.  (At `n = 0` the Python
slice `messages[-0:]` instead returns the whole list.) -/
theorem context_store_bounded_and_trim_keeps_recent (st : CtxStore)
    (hst : ctxReachable st) (s a : String) (ms : List Msg) (hms : st s a = some ms)
    (xs : List Msg) (n : Nat) (hn : 1 ≤ n) :
    (ms.length ≤ 8 ∧ ms.length ≤ 30)
  ∧ trim_context_messages xs n
      = (if xs.length ≤ n then xs else xs.drop (xs.length - n)) := by
  have hb := ctxReachable_bound st hst s a ms hms
  refine ⟨⟨hb, by omega⟩, ?_⟩
  unfold trim_context_messages
  by_cases h : xs.length ≤ n
  · simp [h]
  · have hn0 : n ≠ 0 := by omega
    simp [h, hn0]

/-- Witness for `context_store_bounded_and_trim_keeps_recent`: the store after
saving a 12-message live history for agent `"A"` in session `"s1"` holds the
last 8 of them; trimming a 3-message list to 2 keeps the last 2. -/
theorem context_store_bounded_and_trim_keeps_recent_witness :
    ((List.replicate 8 (⟨"user", "m"⟩ : Msg)).length ≤ 8
      ∧ (List.replicate 8 (⟨"user", "m"⟩ : Msg)).length ≤ 30)
  ∧ trim_context_messages [⟨"user", "1"⟩, ⟨"assistant", "2"⟩, ⟨"user", "3"⟩] 2
      = (if ([⟨"user", "1"⟩, ⟨"assistant", "2"⟩, ⟨"user", "3"⟩] : List Msg).length ≤ 2
          then [⟨"user", "1"⟩, ⟨"assistant", "2"⟩, ⟨"user", "3"⟩]
          else ([⟨"user", "1"⟩, ⟨"assistant", "2"⟩, ⟨"user", "3"⟩] : List Msg).drop
            (([⟨"user", "1"⟩, ⟨"assistant", "2"⟩, ⟨"user", "3"⟩] : List Msg).length - 2)) :=
  context_store_bounded_and_trim_keeps_recent
    (ctxSave ctxEmpty "s1" "A" (List.replicate 12 ⟨"user", "m"⟩))
    (ctxReachable.save ctxEmpty "s1" "A" (List.replicate 12 ⟨"user", "m"⟩)
      ctxReachable.empty)
    "s1" "A" (List.replicate 8 ⟨"user", "m"⟩) (by decide)
    [⟨"user", "1"⟩, ⟨"assistant", "2"⟩, ⟨"user", "3"⟩] 2 (by decide)

lemma refreshStep_fold_mem (instrLoad : String → InstrOutcome) (l : List String)
    (acc : Nat × List String) (x : String) (hx : x ∈ acc.2) :
    x ∈ (l.foldl (refreshStep instrLoad) acc).2 := by
  induction l generalizing acc with
  | nil => exact hx
  | cons b t ih =>
    apply ih
    unfold refreshStep
    cases instrLoad b <;> simp [hx]

lemma refreshStep_fold_collects (instrLoad : String → InstrOutcome) (l : List String)
    (acc : Nat × List String) (a emsg : String) (ha : a ∈ l)
    (hi : instrLoad a = .raised emsg) :
    ("Instructions " ++ a ++ ": " ++ emsg) ∈ (l.foldl (refreshStep instrLoad) acc).2 := by
  induction l generalizing acc with
  | nil => cases ha
  | cons b t ih =>
    rw [List.foldl_cons]
    rcases List.mem_cons.mp ha with hb | ht
    · subst hb
      apply refreshStep_fold_mem
      simp [refreshStep, hi]
    · exact ih (refreshStep instrLoad acc b) ht

lemma refreshStep_fold_count (instrLoad : String → InstrOutcome) (l : List String)
    (acc : Nat × List String) :
    (l.foldl (refreshStep instrLoad) acc).1
      = acc.1 + l.countP (fun x => match instrLoad x with | .ok _ => true | _ => false) := by
  induction l generalizing acc with
  | nil => simp
  | cons b t ih =>
    simp only [List.foldl_cons, List.countP_cons]
    rw [ih]
    unfold refreshStep
    cases hb : instrLoad b <;> simp [hb] <;> omega

/-- Claim C5: per-item failures inside `refresh_all_caches` — a per-agent
instruction reload raising, the agent-card reload raising — are appended to
the report's error list without aborting the batch (every agent is still
visited, and the reload counter counts exactly the agents whose load
succeeded), and the success flag stays `true`; only the global-configuration
reload raising (the one uncaught channel) makes `success` false. -/
theorem refresh_collects_item_failures (names : List String)
    (instrLoad : String → InstrOutcome) (cardsLoad : Except String (List String))
    (a emsg : String) (ha : a ∈ names) (hi : instrLoad a = .raised emsg) :
    (refresh_all_caches (.ok names) instrLoad cardsLoad).success = true
  ∧ ("Instructions " ++ a ++ ": " ++ emsg)
      ∈ (refresh_all_caches (.ok names) instrLoad cardsLoad).errors
  ∧ (refresh_all_caches (.ok names) instrLoad cardsLoad).instructions_from_ddb
      = names.countP (fun x => match instrLoad x with | .ok _ => true | _ => false)
  ∧ (∀ cmsg : String,
      ("Agent cards: " ++ cmsg)
        ∈ (refresh_all_caches (.ok names) instrLoad (.error cmsg)).errors
      ∧ (refresh_all_caches (.ok names) instrLoad (.error cmsg)).success = true) := by
  have hmem := refreshStep_fold_collects instrLoad names (0, []) a emsg ha hi
  have hcount := refreshStep_fold_count instrLoad names (0, [])
  refine ⟨?_, ?_, ?_, ?_⟩
  · simp [refresh_all_caches]
  · unfold refresh_all_caches
    cases cardsLoad <;> simp [hmem]
  · unfold refresh_all_caches
    cases cardsLoad <;> simp [hcount]
  · intro cmsg
    constructor
    · simp [refresh_all_caches]
    · simp [refresh_all_caches]

/-- Witness for `refresh_collects_item_failures`: two agents, `"A"` failing
with `"boom"` and `"B"` loading fine. -/
theorem refresh_collects_item_failures_witness :
    (refresh_all_caches (.ok ["A", "B"])
        (fun x => if x = "A" then .raised "boom" else .ok "text") (.ok [])).success = true
  ∧ ("Instructions " ++ "A" ++ ": " ++ "boom")
      ∈ (refresh_all_caches (.ok ["A", "B"])
          (fun x => if x = "A" then .raised "boom" else .ok "text") (.ok [])).errors
  ∧ (refresh_all_caches (.ok ["A", "B"])
        (fun x => if x = "A" then .raised "boom" else .ok "text") (.ok [])).instructions_from_ddb
      = (["A", "B"] : List String).countP
          (fun x => match (if x = "A" then InstrOutcome.raised "boom"
                           else InstrOutcome.ok "text") with
                    | .ok _ => true | _ => false)
  ∧ (∀ cmsg : String,
      ("Agent cards: " ++ cmsg)
        ∈ (refresh_all_caches (.ok ["A", "B"])
            (fun x => if x = "A" then .raised "boom" else .ok "text") (.error cmsg)).errors
      ∧ (refresh_all_caches (.ok ["A", "B"])
          (fun x => if x = "A" then .raised "boom" else .ok "text") (.error cmsg)).success
          = true) :=
  refresh_collects_item_failures ["A", "B"]
    (fun x => if x = "A" then .raised "boom" else .ok "text") (.ok [])
    "A" "boom" (by decide) (by decide)

/-- Claim C10: `refresh_all_caches` is total at its interface — for every
combination of outcomes of the config loads it performs (the global reload,
the per-agent instruction reloads, the bulk card reload, each of which may
raise) it returns a statistics record with a boolean `success` and a
list-valued `errors` field rather than propagating the exception; `success`
is `false` exactly when the body raised (a raise of the step-3 global reload,
the one load not wrapped in an inner `try`), and in that case the report
carries the fatal error entry. -/
theorem refresh_total_and_success_shape :
    (∀ (g : Except String (List String)) (i : String → InstrOutcome)
        (c : Except String (List String)),
        (refresh_all_caches g i c).success
          = (match g with | .ok _ => true | .error _ => false))
  ∧ (∀ (e : String) (i : String → InstrOutcome) (c : Except String (List String)),
        refresh_all_caches (.error e) i c
          = { success := false, errors := ["Fatal error: " ++ e]
              instructions_from_ddb := 0, cards := none
              global_config_count := 0, agent_configs_found := 0 }) := by
  constructor
  · intro g i c
    cases g <;> rfl
  · intro e i c
    rfl

/-- Claim C7, counterexample: `restore_from_session` performs no filtering.
A fetched turn consisting of a message with empty (near-empty, `len < 3`)
text and a tool-call marker message is returned verbatim in the restored
sequence. -/
theorem restore_keeps_degenerate_and_tool_messages :
    (restore_from_session ⟨true, true, false, -1, 0, 0⟩ none
        (.ok [[⟨"user", .textField ""⟩, ⟨"assistant", .other "toolUse tooluse_abc123"⟩]])
        none).2
      = some [⟨"user", ""⟩, ⟨"assistant", "toolUse tooluse_abc123"⟩]
  ∧ ("" : String).length < 3
  ∧ ("toolUse".data <:+: ("toolUse tooluse_abc123").data) := by decide

/-- Claim C7 (amended): `restore_from_session` translates every fetched
message one-for-one — role lowercased, text extracted — with no filtering of
tool-call markers or near-empty text (that filtering exists only in the
handler's separate history-injection path); the restored sequence has exactly
one message per fetched message. -/
theorem restore_translates_all_messages (m : ConvMgr) (sc : Option (Nat × Int))
    (turns : List (List RawMsg)) (fb : Option (List Msg))
    (havail : m.memory_available = true) (hne : turns ≠ []) :
    (restore_from_session m sc (.ok turns) fb).2 = some (turns.flatten.map rawToMsg)
  ∧ (turns.flatten.map rawToMsg).length = turns.flatten.length := by
  constructor
  · unfold restore_from_session
    cases sc <;> simp [havail, hne]
  · exact List.length_map _ _

/-- Witness for `restore_translates_all_messages`: one fetched turn with a
user/assistant exchange. -/
theorem restore_translates_all_messages_witness :
    (restore_from_session ⟨true, true, false, -1, 0, 0⟩ none
        (.ok [[⟨"User", .textField "hi"⟩, ⟨"Assistant", .plainText "hello"⟩]]) none).2
      = some (([[⟨"User", .textField "hi"⟩, ⟨"Assistant", .plainText "hello"⟩]] :
          List (List RawMsg)).flatten.map rawToMsg)
  ∧ (([[⟨"User", .textField "hi"⟩, ⟨"Assistant", .plainText "hello"⟩]] :
        List (List RawMsg)).flatten.map rawToMsg).length
      = ([[⟨"User", .textField "hi"⟩, ⟨"Assistant", .plainText "hello"⟩]] :
          List (List RawMsg)).flatten.length :=
  restore_translates_all_messages ⟨true, true, false, -1, 0, 0⟩ none
    [[⟨"User", .textField "hi"⟩, ⟨"Assistant", .plainText "hello"⟩]] none
    rfl (by decide)

/-- Claim C8, counterexample: with no fallback manager configured, a
successful-but-empty history fetch and a raising (store-unreachable) fetch
produce identical results — the caller cannot tell the two outcomes apart. -/
theorem restore_empty_eq_failure :
    restore_from_session ⟨true, true, false, -1, 0, 0⟩ none (.ok []) none
      = restore_from_session ⟨true, true, false, -1, 0, 0⟩ none
          (.error "ClientError") none := by decide

/-- Claim C8 (amended): `restore_from_session` returns `None` both when no
history exists and when the durable store is unreachable (the exception is
caught and logged; with a fallback manager the failure path returns the
fallback's result instead).  Without a fallback the two outcomes are
observably identical. -/
theorem restore_none_on_empty_and_on_failure (m : ConvMgr) (sc : Option (Nat × Int))
    (fb : Option (List Msg)) (emsg : String)
    (havail : m.memory_available = true) (hnofb : m.has_fallback = false) :
    restore_from_session m sc (.ok []) fb = restore_from_session m sc (.error emsg) fb
  ∧ (restore_from_session m sc (.ok []) fb).2 = none := by
  unfold restore_from_session
  cases sc <;> simp [havail, hnofb]

/-- Witness for `restore_none_on_empty_and_on_failure`. -/
theorem restore_none_on_empty_and_on_failure_witness :
    restore_from_session ⟨true, true, false, 3, 4, 0⟩ none (.ok []) none
      = restore_from_session ⟨true, true, false, 3, 4, 0⟩ none (.error "timeout") none
  ∧ (restore_from_session ⟨true, true, false, 3, 4, 0⟩ none (.ok []) none).2 = none :=
  restore_none_on_empty_and_on_failure ⟨true, true, false, 3, 4, 0⟩ none none
    "timeout" rfl rfl

/-- Claim C9, counterexample: a `ClientError` raised by the backing-store read
IS cached as a negative entry.  `_get_item` catches the error and returns
`None`, and `load_agent_instructions` then writes `None` into the cache for
the key — exactly as for a genuine not-found. -/
theorem client_error_is_cached_negative :
    cacheLookup (load_agent_instructions (fun _ _ _ => .clientError) [] "AgentX" true).2.1
        "instruction:AgentX" = some none
  ∧ (load_agent_instructions (fun _ _ _ => .clientError) [] "AgentX" true).1 = none := by
  decide

/-- Claim C9 (amended): a transient `ClientError` from the backing-store read
is caught inside `_get_item` and collapsed to "no item"; on a cache miss the
loader then returns not-found and writes a negative cache entry for the key,
indistinguishably from a genuine not-found. -/
theorem client_error_treated_as_not_found (st : Store) (c : Cache) (a : String)
    (use_cache : Bool)
    (hmiss : cacheLookup c ("instruction:" ++ a) = none)
    (herr : st ("INSTRUCTION#" ++ a) "v1" (!use_cache) = .clientError) :
    load_agent_instructions st c a use_cache
      = (none, cacheInsert c ("instruction:" ++ a) none, 1) := by
  cases use_cache with
  | false =>
    have hget : get_item st ("INSTRUCTION#" ++ a) "v1" true = none := by
      simp only [Bool.not_false] at herr
      simp [get_item, herr]
    unfold load_agent_instructions
    simp only []
    simp [hget]
  | true =>
    have hget : get_item st ("INSTRUCTION#" ++ a) "v1" false = none := by
      simp only [Bool.not_true] at herr
      simp [get_item, herr]
    unfold load_agent_instructions
    simp only []
    rw [hmiss]
    simp [hget]

/-- Witness for `client_error_treated_as_not_found`: a store whose every read
raises, empty cache, a Relaxed read. -/
theorem client_error_treated_as_not_found_witness :
    load_agent_instructions (fun _ _ _ => .clientError) [] "AgentX" true
      = (none, cacheInsert [] ("instruction:" ++ "AgentX") none, 1) :=
  client_error_treated_as_not_found (fun _ _ _ => .clientError) [] "AgentX" true
    rfl rfl

end AdAgents
